import Mathlib

/-!
Verification development for the Obscur desktop client native backend
(apps/desktop/src-tauri/src).  The Rust modules relay.rs, upload.rs, net.rs,
wallet.rs and session.rs are shallowly embedded as executable Lean
definitions; external I/O (the WebSocket dial, the HTTP server, the OS
secret store, key parsing in the nostr crate) is passed in as explicit
parameters or oracles.  Machine integers use Nat with explicit saturation
where the Rust code saturates.
-/

set_option maxHeartbeats 1000000

namespace Obscur

namespace Relay

/-- Opaque JSON values (subscription filters, event payloads): the relay pool
never inspects them beyond embedding them in frames, so they are kept as
their serialized text. -/
abbrev JsonV := String

/-- Outgoing WebSocket frames enqueued on a relay writer channel. -/
inductive Frame where
  /-- A NIP-01 subscription request frame `["REQ", sub_id, filter]`. -/
  | req (subId : String) (fil : JsonV)
  /-- A NIP-01 `["CLOSE", sub_id]` frame. -/
  | closeSub (subId : String)
  /-- A NIP-01 `["EVENT", event]` frame. -/
  | eventMsg (payload : JsonV)
  /-- A WebSocket Close frame. -/
  | closeConn
deriving DecidableEq

/-- RelayPool state (relay.rs lines 161-167): presence of a live connection
per URL, persistent per-relay subscription maps, the desired set, stored
reconnect backoff exponents, and in-flight reconnect flags.  The Rust
HashMaps and HashSet are modelled as functions from URL strings; a
subscription map is a key-value list (HashMap keys are unique, which callers
track as a nodup hypothesis on the keys). -/
structure Pool where
  connections : String → Bool
  states : String → List (String × JsonV)
  desired : String → Bool
  backoffExp : String → Option Nat
  inflight : String → Bool

/-- Result of one `connect_relay` call (relay.rs lines 248-412).  `wsOk`
abstracts the outcome of the external WebSocket dial (direct
`connect_async`, or the Tor SOCKS5 path with its 30 bounded attempts);
`parseOk` abstracts `url::Url::parse`.  `enqueued` lists the frames sent on
the new writer channel during the call (the subscription replay); `dialed`
records whether any WebSocket dial was attempted.  The error strings
produced by foreign `to_string` calls are represented by fixed
placeholders. -/
structure ConnectOutcome where
  result : Except String String
  pool : Pool
  enqueued : List Frame
  dialed : Bool

/-- `connect_relay` (relay.rs lines 248-412): insert the URL into the desired
set, return early when a connection already exists, parse the URL, dial,
install the send half into the pool, then replay every persisted
`(sub_id, filter)` entry as a `["REQ", sub_id, filter]` frame. -/
def connect_relay (p : Pool) (url : String) (parseOk wsOk : Bool) :
    ConnectOutcome :=
  let p1 : Pool := { p with desired := fun v => if v = url then true else p.desired v }
  if p1.connections url then
    { result := .ok "Already connected", pool := p1, enqueued := [], dialed := false }
  else if parseOk = false then
    { result := .error "relay URL parse error", pool := p1, enqueued := [], dialed := false }
  else if wsOk = false then
    { result := .error "WebSocket connect failed", pool := p1, enqueued := [], dialed := true }
  else
    let p2 : Pool :=
      { p1 with connections := fun v => if v = url then true else p1.connections v }
    { result := .ok "Connected"
      pool := p2
      enqueued := (p2.states url).map (fun e => Frame.req e.1 e.2)
      dialed := true }

/-- Result of one `disconnect_relay` call (relay.rs lines 416-450). -/
structure DisconnectOutcome where
  result : Except String String
  pool : Pool
  enqueued : List Frame

/-- `disconnect_relay` (relay.rs lines 416-450): remove the URL from the
desired set, the in-flight set and the backoff map, then remove the
connection entry; when a connection existed, enqueue a Close frame and
return Ok, otherwise return the error "Not connected". -/
def disconnect_relay (p : Pool) (url : String) : DisconnectOutcome :=
  let p1 : Pool :=
    { p with
      desired := fun v => if v = url then false else p.desired v
      inflight := fun v => if v = url then false else p.inflight v
      backoffExp := fun v => if v = url then none else p.backoffExp v }
  if p1.connections url then
    { result := .ok "Disconnected"
      pool := { p1 with connections := fun v => if v = url then false else p1.connections v }
      enqueued := [Frame.closeConn] }
  else
    { result := .error "Not connected", pool := p1, enqueued := [] }

/-- Saturation bound of the Rust `u32` backoff exponent. -/
def u32Max : Nat := 2 ^ 32 - 1

/-- `compute_backoff_delay` (relay.rs lines 181-188), in milliseconds:
`min(BASE_MS * (1 << min(exp, 6)), MAX_MS)` with BASE_MS = 1000 and
MAX_MS = 60000.  The `checked_shl` never overflows because the shift is
capped at 6, and the `saturating_mul` stays far below 2^64. -/
def compute_backoff_delay (e : Nat) : Nat :=
  min (1000 * 2 ^ (min e 6)) 60000

/-- Synchronous part of `schedule_reconnect` (relay.rs lines 190-217): abort
when the URL is not desired or a reconnect is already in flight; otherwise
set the in-flight flag, store the incremented exponent (u32 saturating add),
and return the delay in milliseconds passed to the sleep. -/
def schedule_reconnect (p : Pool) (url : String) : Pool × Option Nat :=
  if p.desired url = false then (p, none)
  else if p.inflight url = true then (p, none)
  else
    let next : Nat := min ((p.backoffExp url).getD 0 + 1) u32Max
    let p2 : Pool :=
      { p with
        inflight := fun v => if v = url then true else p.inflight v
        backoffExp := fun v => if v = url then some next else p.backoffExp v }
    (p2, some (compute_backoff_delay next))

/-- Body of the task spawned by `schedule_reconnect` after its sleep
(relay.rs lines 219-244): abort when the URL left the desired set, otherwise
attempt `connect_relay`; when that returns Ok, remove the stored exponent;
in every case clear the in-flight flag. -/
def reconnect_attempt (p : Pool) (url : String) (parseOk wsOk : Bool) :
    Pool × List Frame :=
  if p.desired url = false then
    ({ p with inflight := fun v => if v = url then false else p.inflight v }, [])
  else
    let c := connect_relay p url parseOk wsOk
    let p1 : Pool :=
      match c.result with
      | .ok _ =>
        { c.pool with backoffExp := fun v => if v = url then none else c.pool.backoffExp v }
      | .error _ => c.pool
    ({ p1 with inflight := fun v => if v = url then false else p1.inflight v }, c.enqueued)

/-- Pool state of a relay whose URL is desired but currently disconnected,
with no stored backoff exponent: the situation right after the socket of a
first successful connect drops. -/
def initialPool (url : String) : Pool :=
  { connections := fun _ => false
    states := fun _ => []
    desired := fun v => if v = url then true else false
    backoffExp := fun _ => none
    inflight := fun _ => false }

/-- One full failed reconnect cycle: the scheduler fires and then the
spawned attempt fails at the WebSocket dial. -/
def failed_reconnect_cycle (url : String) (p : Pool) : Pool :=
  (reconnect_attempt (schedule_reconnect p url).1 url true false).1

/-- Pool state after `n` consecutive failed reconnect cycles starting from
`initialPool`. -/
def poolAfterFails (url : String) (n : Nat) : Pool :=
  (failed_reconnect_cycle url)^[n] (initialPool url)

/-- Delay in milliseconds scheduled for reconnect attempt `n` (0-indexed),
after `n` previous consecutive failed attempts. -/
def nth_reconnect_delay (url : String) (n : Nat) : Option Nat :=
  (schedule_reconnect (poolAfterFails url n) url).2

/-- Concrete pool used to instantiate hypotheses of the claim theorems about
`connect_relay`: one relay with a single persisted subscription and a live
connection absent. -/
def replayPool : Pool :=
  { connections := fun _ => false
    states := fun v => if v = "wss://relay.example/" then [("s1", "F1")] else []
    desired := fun _ => false
    backoffExp := fun _ => none
    inflight := fun _ => false }

/-- Concrete pool with a live connection for `wss://relay.one/`. -/
def connectedPool : Pool :=
  { connections := fun v => if v = "wss://relay.one/" then true else false
    states := fun v => if v = "wss://relay.one/" then [("s1", "F1")] else []
    desired := fun v => if v = "wss://relay.one/" then true else false
    backoffExp := fun _ => none
    inflight := fun _ => false }

/-- Concrete pool with a desired, disconnected relay carrying a stored
backoff exponent. -/
def backoffPool : Pool :=
  { connections := fun _ => false
    states := fun _ => []
    desired := fun v => if v = "wss://relay.two/" then true else false
    backoffExp := fun v => if v = "wss://relay.two/" then some 3 else none
    inflight := fun _ => false }

/-- Concrete pool with `wss://relay.three/` desired but not connected, used
for the disconnect-while-not-connected claim. -/
def notConnectedPool : Pool :=
  { connections := fun _ => false
    states := fun v => if v = "wss://relay.three/" then [("s9", "F9")] else []
    desired := fun v => if v = "wss://relay.three/" then true else false
    backoffExp := fun v => if v = "wss://relay.three/" then some 2 else none
    inflight := fun v => if v = "wss://relay.three/" then true else false }

end Relay

namespace Net

/-- Components of a parsed URL as read by the dialer: `url::Url::parse`
output restricted to the fields `scheme()`, `host_str()` and `port()`. -/
structure ParsedUrl where
  scheme : String
  host : Option String
  port : Option Nat

/-- Proxy-target resolution of `connect_wss_via_socks5` (net.rs lines
66-72): the scheme must be `socks5` or `socks5h`, the host must be present,
and a missing port defaults to 9050.  Returns the (host, port) pair handed
to the SOCKS5 CONNECT. -/
def connect_wss_via_socks5_proxy (u : ParsedUrl) : Except String (String × Nat) :=
  if u.scheme ≠ "socks5" ∧ u.scheme ≠ "socks5h" then
    .error "Invalid SOCKS5 proxy URL"
  else
    match u.host with
    | none => .error "Proxy URL missing host"
    | some h => .ok (h, u.port.getD 9050)

/-- Configuration of the HTTP client produced by `build_reqwest_client`
(net.rs lines 33-40): redirect policy none, and the SOCKS5 proxy installed
exactly when Tor is enabled. -/
structure ClientConfig where
  followRedirects : Bool
  useProxy : Bool

/-- `build_reqwest_client` (net.rs lines 33-40). -/
def build_reqwest_client (torEnabled : Bool) : ClientConfig :=
  { followRedirects := false, useProxy := torEnabled }

end Net

namespace Upload

/-- JSON values of upload response bodies (serde_json::Value).  Object keys
are unique in serde maps; `getField` returns the first binding. -/
inductive Json where
  | null
  | boolV (b : Bool)
  | num (n : Int)
  | str (s : String)
  | arr (items : List Json)
  | obj (fields : List (String × Json))

/-- `Value::get(key)` on objects. -/
def getField (j : Json) (key : String) : Option Json :=
  match j with
  | .obj fields => fields.lookup key
  | _ => none

/-- `Value::as_str`. -/
def asStr (j : Json) : Option String :=
  match j with
  | .str s => some s
  | _ => none

/-- `Value::as_array`. -/
def asArr (j : Json) : Option (List Json) :=
  match j with
  | .arr items => some items
  | _ => none

/-- One iteration of the tag scan in `extract_url_from_response` (upload.rs
lines 106-114): a tag that is an array of length at least 2 whose head is
the string "url" makes the whole function return `arr[1].as_str()` (outer
`some`); any other tag is skipped (outer `none`). -/
def tagUrl (t : Json) : Option (Option String) :=
  match t with
  | .arr (a0 :: a1 :: _) =>
    if asStr a0 = some "url" then some (asStr a1) else none
  | _ => none

/-- The tag loop of `extract_url_from_response`. -/
def scanTags (tags : List Json) : Option (Option String) :=
  match tags with
  | [] => none
  | t :: rest =>
    match tagUrl t with
    | some r => some r
    | none => scanTags rest

/-- `extract_url_from_response` (upload.rs lines 103-141): try
`nip94_event.tags` (early return on the first "url" tag), then the
top-level `url` field, then `data[0].url`, then `data.url`. -/
def extract_url_from_response (j : Json) : Option String :=
  let nip94Url : Option (Option String) :=
    match getField j "nip94_event" with
    | some ev =>
      match (getField ev "tags").bind asArr with
      | some tags => scanTags tags
      | none => none
    | none => none
  match nip94Url with
  | some r => r
  | none =>
    match (getField j "url").bind asStr with
    | some u => some u
    | none =>
      match getField j "data" with
      | some data =>
        let arrUrl : Option String :=
          match asArr data with
          | some items =>
            match items.head? with
            | some first => (getField first "url").bind asStr
            | none => none
          | none => none
        match arrUrl with
        | some u => some u
        | none => (getField data "url").bind asStr
      | none => none

/-- The `last_error` variable of `nip96_upload_v2`, kept structured: the
Rust code renders it with `format!` into the final message, and the Display
output of foreign status codes is not reimplemented here. -/
inductive LastErr where
  | noAttempts
  | apiError (msg : String)
  | httpError (status : Nat) (body : String)
  | jsonParseError
  | networkError (msg : String)
deriving DecidableEq

/-- Outcome of `nip96_upload_v2` after the field-name loop: either a success
response (url extracted from the body, raw nip94_event passed through) or
the all-attempts-failed error built from `last_error`. -/
inductive UploadResult where
  | success (url : Option String) (nip94 : Option Json)
  | failed (lastError : LastErr)

/-- An HTTP response as the server produced it.  `send_multipart_request`
(upload.rs lines 144-173) forwards only `(status, body)` to the caller;
`location` is the Location header, which that helper drops; `bodyJson` is
the `serde_json::from_str` parse of the body. -/
structure HttpResp where
  status : Nat
  body : String
  location : Option String
  bodyJson : Option Json

/-- Outcome of one multipart POST as seen by the loop: a response, or a
transport error (reqwest::Error, rendered to its message). -/
inductive HttpOutcome where
  | resp (r : HttpResp)
  | netErr (msg : String)

/-- `StatusCode::is_success`: 2xx. -/
def status_is_success (s : Nat) : Bool :=
  decide (200 ≤ s ∧ s < 300)

/-- Needle-at-front test on character lists. -/
def charsHaveFront (needle hay : List Char) : Bool :=
  match needle, hay with
  | [], _ => true
  | _ :: _, [] => false
  | a :: as, b :: bs => a == b && charsHaveFront as bs

/-- Substring test on character lists. -/
def charsContain (needle hay : List Char) : Bool :=
  match hay with
  | [] => needle.isEmpty
  | _ :: rest => charsHaveFront needle hay || charsContain needle rest

/-- `text.to_lowercase().contains("no files")`. -/
def contains_no_files (text : String) : Bool :=
  charsContain "no files".toList text.toLower.toList

/-- The field-name loop of `nip96_upload_v2` (upload.rs lines 221-301),
parameterized by an oracle giving the server outcome per field name.
Returns the command result together with the list of field names actually
sent.  Control flow is kept exactly as in the source: the only early exits
are the two success returns; every failure arm ends the loop body, which
proceeds to the next field name, so the two explicit `continue` statements
(API error mentioning "no files", and HTTP 400 with a body mentioning
"no files") behave the same as the fall-through arms next to them. -/
def field_attempts (oracle : String → HttpOutcome) :
    List String → LastErr → UploadResult × List String
  | [], le => (.failed le, [])
  | f :: rest, _le =>
    let inner : UploadResult × List String :=
      match oracle f with
      | .netErr m =>
        field_attempts oracle rest (.networkError m)
      | .resp resp =>
        if status_is_success resp.status then
          match resp.bodyJson with
          | some json =>
            if (getField json "status").bind asStr = some "error" then
              let msg := ((getField json "message").bind asStr).getD "Unknown API error"
              if contains_no_files msg then
                field_attempts oracle rest (.apiError msg)
              else
                field_attempts oracle rest (.apiError msg)
            else
              (.success (extract_url_from_response json) (getField json "nip94_event"), [])
          | none =>
            field_attempts oracle rest .jsonParseError
        else
          if resp.status == 400 && contains_no_files resp.body then
            field_attempts oracle rest (.httpError resp.status resp.body)
          else
            field_attempts oracle rest (.httpError resp.status resp.body)
    (inner.1, f :: inner.2)

/-- `nip96_upload_v2` from the retry loop on (upload.rs lines 220-309): the
preceding steps (empty-bytes check, session lookup, NIP-98 signing, client
construction) gate entry to the loop and are independent of it. -/
def nip96_upload_v2 (oracle : String → HttpOutcome) : UploadResult × List String :=
  field_attempts oracle ["file", "files[]", "files"] .noAttempts

/-- Erase the Location header from an outcome: what `send_multipart_request`
leaves visible to the loop. -/
def respNoLocation (o : HttpOutcome) : HttpOutcome :=
  match o with
  | .resp r => .resp { r with location := none }
  | .netErr m => .netErr m

/-- Oracle for the failing input of the retry-only-on-no-files claim: the
first attempt receives HTTP 500, later attempts fail at transport level. -/
def oracle500 : String → HttpOutcome := fun f =>
  if f = "file" then .resp ⟨500, "internal error", none, none⟩
  else .netErr "connection refused"

/-- Oracle family for the redirect claim: the first attempt receives a 301
carrying the given Location header, later attempts receive HTTP 500. -/
def oracle301 (loc : Option String) : String → HttpOutcome := fun f =>
  if f = "file" then .resp ⟨301, "", loc, none⟩
  else .resp ⟨500, "server error", none, none⟩

end Upload

namespace Wallet

/-- Key pair as observed by the wallet commands: only the derived public key
is ever serialized back to the UI. -/
structure Keys where
  publicKey : String
deriving DecidableEq

/-- World state of the session and secret-store pair: the in-memory Session
(session.rs), the OS credential-store entry (service app.obscur.desktop,
entry nsec), and an instrumentation counter of secret-store reads
(`Entry::get_password` calls). -/
structure World where
  session : Option Keys
  store : Option String
  storeReads : Nat
deriving DecidableEq

/-- `ensure_session` (wallet.rs lines 45-68), with the key parsing done by
the nostr crate (`Keys::parse` / `SecretKey::from_hex` dispatch inside
`SessionState::set_keys`) abstracted as `parseKey`.  The secret store is
read only when the Session is empty; on a successful read and parse the
Session is hydrated and the parsed keys are returned. -/
def ensure_session (parseKey : String → Option Keys) (w : World) :
    Except String Keys × World :=
  match w.session with
  | some keys => (.ok keys, w)
  | none =>
    let w1 : World := { w with storeReads := w.storeReads + 1 }
    match w.store with
    | some nsec =>
      match parseKey nsec with
      | some keys => (.ok keys, { w1 with session := some keys })
      | none => (.error "Failed to hydrate session from keychain", w1)
    | none => (.error "No active native session and no key in keychain", w1)

/-- `get_native_npub` (wallet.rs lines 37-42): the derived public key when a
session exists or can be hydrated, `none` otherwise. -/
def get_native_npub (parseKey : String → Option Keys) (w : World) :
    Option String × World :=
  match ensure_session parseKey w with
  | (.ok keys, w1) => (some keys.publicKey, w1)
  | (.error _, w1) => (none, w1)

/-- Concrete key parser for witnesses: accepts a single known nsec. -/
def demoParse : String → Option Keys := fun s =>
  if s = "nsec1demo" then some ⟨"npub1demo"⟩ else none

/-- Cold-start world: empty Session, a key present in the secret store. -/
def coldWorld : World :=
  { session := none, store := some "nsec1demo", storeReads := 0 }

end Wallet

namespace Relay

lemma cycle_step (p : Pool) (url : String) (hd : p.desired url = true)
    (hi : p.inflight url = false) (hc : p.connections url = false) :
    (failed_reconnect_cycle url p).desired url = true ∧
    (failed_reconnect_cycle url p).inflight url = false ∧
    (failed_reconnect_cycle url p).connections url = false ∧
    (failed_reconnect_cycle url p).backoffExp url =
      some (min ((p.backoffExp url).getD 0 + 1) u32Max) := by
  unfold failed_reconnect_cycle schedule_reconnect reconnect_attempt connect_relay
  simp [hd, hi, hc]

lemma poolAfterFails_inv (url : String) (n : Nat) :
    (poolAfterFails url n).desired url = true ∧
    (poolAfterFails url n).inflight url = false ∧
    (poolAfterFails url n).connections url = false ∧
    (poolAfterFails url n).backoffExp url =
      (if n = 0 then none else some (min n u32Max)) := by
  induction n with
  | zero =>
    simp [poolAfterFails, initialPool]
  | succ k ih =>
    obtain ⟨hd, hi, hc, hb⟩ := ih
    have hstep := cycle_step (poolAfterFails url k) url hd hi hc
    rw [hb] at hstep
    have hiter : poolAfterFails url (k + 1) =
        failed_reconnect_cycle url (poolAfterFails url k) := by
      unfold poolAfterFails
      exact Function.iterate_succ_apply' (failed_reconnect_cycle url) k (initialPool url)
    rw [hiter]
    refine ⟨hstep.1, hstep.2.1, hstep.2.2.1, ?_⟩
    rw [hstep.2.2.2]
    have hM : u32Max = 4294967295 := by norm_num [u32Max]
    by_cases hk : k = 0
    · subst hk
      simp [hM]
    · simp only [hk, if_false, Option.getD_some]
      simp only [Nat.add_eq_zero, one_ne_zero, and_false, if_false]
      congr 1
      omega

/-- C1 counterexample: the first delay scheduled for a URL with no stored
backoff exponent is 2000 ms, not the 1000 ms (1 s) the claimed sequence
`1, 2, 4, 8, 16, 32, 60, 60` starts with: `schedule_reconnect` increments
the exponent before computing the delay. -/
theorem c1_counterexample :
    nth_reconnect_delay "wss://relay.example/" 0 = some 2000 ∧
    nth_reconnect_delay "wss://relay.example/" 0 ≠ some 1000 := by
  constructor
  · rfl
  · decide

/-- C1 (amended): for a desired URL that repeatedly fails to reconnect, the
delay scheduled before attempt `n` (0-indexed, starting with no stored
exponent) is `min(1000 ms * 2^min(n+1, 6), 60000 ms)`: the exponent is
incremented before the delay computation, so the sequence is
2, 4, 8, 16, 32, 60, 60, ... seconds. -/
theorem c1_amended_delay_formula :
    ∀ (url : String) (n : Nat),
      nth_reconnect_delay url n =
        some (min (1000 * 2 ^ (min (n + 1) 6)) 60000) := by
  intro url n
  obtain ⟨hd, hi, hc, hb⟩ := poolAfterFails_inv url n
  have hM : u32Max = 4294967295 := by norm_num [u32Max]
  unfold nth_reconnect_delay schedule_reconnect
  simp only [hd, hi, hb, Bool.true_eq_false, if_false, compute_backoff_delay]
  have hkey :
      min (min ((if n = 0 then (none : Option Nat)
          else some (min n u32Max)).getD 0 + 1) u32Max) 6 = min (n + 1) 6 := by
    by_cases hn : n = 0
    · subst hn; simp [hM]
    · simp only [hn, if_false, Option.getD_some, hM]
      omega
  simp [hkey]

/-- C4: when `connect_relay` establishes a fresh connection (result
"Connected"), every `(sub_id, filter)` pair persisted for that URL is
enqueued on the new writer exactly once as a `["REQ", sub_id, filter]`
frame. -/
theorem c4_initial_replay_exactly_once
    (p : Pool) (url sid fil : String)
    (hnodup : ((p.states url).map Prod.fst).Nodup)
    (hmem : (sid, fil) ∈ p.states url)
    (hconn : p.connections url = false) :
    (connect_relay p url true true).result = .ok "Connected" ∧
    (connect_relay p url true true).enqueued.count (Frame.req sid fil) = 1 := by
  unfold connect_relay
  refine ⟨by simp [hconn], ?_⟩
  have hinj : Function.Injective (fun e : String × JsonV => Frame.req e.1 e.2) := by
    intro a b hab
    cases a; cases b
    simpa using hab
  have h1 := List.count_map_of_injective (p.states url)
    (fun e : String × JsonV => Frame.req e.1 e.2) hinj (sid, fil)
  have h2 := List.count_eq_one_of_mem (List.Nodup.of_map Prod.fst hnodup) hmem
  have h3 := h1.trans h2
  simp only [hconn, Bool.false_eq_true, if_false, Bool.true_eq_false]
  exact h3

/-- C4 witness: the replay property at a concrete pool holding one persisted
subscription. -/
theorem c4_initial_replay_exactly_once_witness :
    ((replayPool.states "wss://relay.example/").map Prod.fst).Nodup ∧
    ("s1", "F1") ∈ replayPool.states "wss://relay.example/" ∧
    replayPool.connections "wss://relay.example/" = false ∧
    (connect_relay replayPool "wss://relay.example/" true true).enqueued.count
      (Frame.req "s1" "F1") = 1 := by
  refine ⟨by decide, by decide, by decide, ?_⟩
  exact (c4_initial_replay_exactly_once replayPool "wss://relay.example/" "s1" "F1"
    (by decide) (by decide) (by decide)).2

/-- C5 counterexample: a second `connect_relay` on an already connected URL
returns the string "Already connected" (capital A), not the claimed literal
"already connected". -/
theorem c5_counterexample :
    (connect_relay connectedPool "wss://relay.one/" true true).result =
      .ok "Already connected" ∧
    "Already connected" ≠ "already connected" := by
  exact ⟨rfl, by decide⟩

/-- C5 (amended): when a connection entry already exists for the URL, the
call returns Ok "Already connected", attempts no WebSocket dial, enqueues
nothing, and leaves the connections map and the persistent subscription
state unchanged. -/
theorem c5_amended_already_connected
    (p : Pool) (url : String) (parseOk wsOk : Bool)
    (hconn : p.connections url = true) :
    (connect_relay p url parseOk wsOk).result = .ok "Already connected" ∧
    (connect_relay p url parseOk wsOk).pool.connections = p.connections ∧
    (connect_relay p url parseOk wsOk).dialed = false ∧
    (connect_relay p url parseOk wsOk).enqueued = [] ∧
    (connect_relay p url parseOk wsOk).pool.states = p.states := by
  unfold connect_relay
  simp [hconn]

/-- C5 witness: the amended statement at a concrete connected pool. -/
theorem c5_amended_already_connected_witness :
    connectedPool.connections "wss://relay.one/" = true ∧
    (connect_relay connectedPool "wss://relay.one/" true true).dialed = false ∧
    (connect_relay connectedPool "wss://relay.one/" true true).enqueued = [] := by
  refine ⟨by decide, ?_, ?_⟩
  · exact (c5_amended_already_connected connectedPool "wss://relay.one/" true true
      (by decide)).2.2.1
  · exact (c5_amended_already_connected connectedPool "wss://relay.one/" true true
      (by decide)).2.2.2.1

/-- C7 counterexample: after 7 consecutive failed reconnect cycles the
stored backoff exponent is 7, outside the claimed range 0..=6 (the cap at 6
lives only inside `compute_backoff_delay`). -/
theorem c7_counterexample :
    (poolAfterFails "wss://relay.two/" 7).backoffExp "wss://relay.two/" = some 7 ∧
    ¬ (7 : Nat) ≤ 6 := by
  constructor
  · have h := (poolAfterFails_inv "wss://relay.two/" 7).2.2.2
    norm_num [u32Max] at h
    exact h
  · decide

/-- C7 (amended): the stored backoff exponent grows without bound up to the
u32 saturation limit (it is `min n u32Max` after `n` consecutive failed
cycles, so it leaves 0..=6 after the seventh failure); the cap at 6 is
applied only when the delay is computed.  Both the exponent entry and the
in-flight flag are cleared by `disconnect_relay`, and a reconnect attempt
whose `connect_relay` returns Ok removes the exponent and clears the
in-flight flag. -/
theorem c7_amended_backoff_state :
    (∀ (url : String) (n : Nat),
      (poolAfterFails url n).backoffExp url =
        (if n = 0 then none else some (min n u32Max))) ∧
    (∀ (p : Pool) (url : String),
      (disconnect_relay p url).pool.backoffExp url = none ∧
      (disconnect_relay p url).pool.inflight url = false) ∧
    (∀ (p : Pool) (url : String), p.desired url = true →
      (reconnect_attempt p url true true).1.backoffExp url = none ∧
      (reconnect_attempt p url true true).1.inflight url = false) := by
  refine ⟨fun url n => (poolAfterFails_inv url n).2.2.2, ?_, ?_⟩
  · intro p url
    unfold disconnect_relay
    dsimp only
    constructor <;> (split <;> simp)
  · intro p url hd
    unfold reconnect_attempt connect_relay
    by_cases hc : p.connections url = true <;> simp [hd, hc]

/-- C7 witness: the clearing clauses at a concrete pool carrying a stored
exponent. -/
theorem c7_amended_backoff_state_witness :
    backoffPool.desired "wss://relay.two/" = true ∧
    backoffPool.backoffExp "wss://relay.two/" = some 3 ∧
    (reconnect_attempt backoffPool "wss://relay.two/" true true).1.backoffExp
      "wss://relay.two/" = none := by
  refine ⟨by decide, by decide, ?_⟩
  exact (c7_amended_backoff_state.2.2 backoffPool "wss://relay.two/" (by decide)).1

/-- C8: `disconnect_relay` leaves the persistent subscription state of every
URL unchanged, and a later fresh `connect_relay` replays exactly the
subscriptions persisted before the disconnect. -/
theorem c8_disconnect_preserves_subscriptions :
    ∀ (p : Pool) (url : String),
      (disconnect_relay p url).pool.states = p.states ∧
      (connect_relay (disconnect_relay p url).pool url true true).enqueued =
        (p.states url).map (fun e => Frame.req e.1 e.2) := by
  intro p url
  constructor
  · unfold disconnect_relay
    dsimp only
    split <;> rfl
  · unfold disconnect_relay connect_relay
    by_cases h : p.connections url = true <;> simp [h]

/-- C10: `disconnect_relay` on a URL with no connection entry returns the
error "Not connected" but has already removed the URL from the desired set
and cleared its backoff exponent and in-flight flag; the connections map and
subscription state are untouched. -/
theorem c10_disconnect_not_connected_mutates_state
    (p : Pool) (url : String) (hconn : p.connections url = false) :
    (disconnect_relay p url).result = .error "Not connected" ∧
    (disconnect_relay p url).pool.desired url = false ∧
    (disconnect_relay p url).pool.backoffExp url = none ∧
    (disconnect_relay p url).pool.inflight url = false ∧
    (disconnect_relay p url).pool.connections = p.connections ∧
    (disconnect_relay p url).pool.states = p.states := by
  unfold disconnect_relay
  simp [hconn]

/-- C10 witness: at a concrete pool where the URL is desired, flagged
in-flight and carrying an exponent but not connected, the call fails with
"Not connected" yet drops all three markers. -/
theorem c10_disconnect_not_connected_mutates_state_witness :
    notConnectedPool.connections "wss://relay.three/" = false ∧
    notConnectedPool.desired "wss://relay.three/" = true ∧
    notConnectedPool.backoffExp "wss://relay.three/" = some 2 ∧
    (disconnect_relay notConnectedPool "wss://relay.three/").result =
      .error "Not connected" ∧
    (disconnect_relay notConnectedPool "wss://relay.three/").pool.desired
      "wss://relay.three/" = false ∧
    (disconnect_relay notConnectedPool "wss://relay.three/").pool.backoffExp
      "wss://relay.three/" = none := by
  refine ⟨by decide, by decide, by decide, ?_, ?_, ?_⟩
  · exact (c10_disconnect_not_connected_mutates_state notConnectedPool
      "wss://relay.three/" (by decide)).1
  · exact (c10_disconnect_not_connected_mutates_state notConnectedPool
      "wss://relay.three/" (by decide)).2.1
  · exact (c10_disconnect_not_connected_mutates_state notConnectedPool
      "wss://relay.three/" (by decide)).2.2.1

end Relay

namespace Net

/-- C9: when dialing a wss relay through the SOCKS5 proxy, scheme socks5h is
handled exactly like socks5, any other scheme yields the invalid-proxy-URL
error, and a proxy URL without a port resolves to port 9050. -/
theorem c9_socks5_scheme_and_default_port :
    (∀ (h : Option String) (po : Option Nat),
      connect_wss_via_socks5_proxy ⟨"socks5h", h, po⟩ =
        connect_wss_via_socks5_proxy ⟨"socks5", h, po⟩) ∧
    (∀ (s : String) (h : Option String) (po : Option Nat),
      s ≠ "socks5" → s ≠ "socks5h" →
      connect_wss_via_socks5_proxy ⟨s, h, po⟩ = .error "Invalid SOCKS5 proxy URL") ∧
    (∀ hst : String,
      connect_wss_via_socks5_proxy ⟨"socks5", some hst, none⟩ = .ok (hst, 9050) ∧
      connect_wss_via_socks5_proxy ⟨"socks5h", some hst, none⟩ = .ok (hst, 9050)) := by
  refine ⟨?_, ?_, ?_⟩
  · intro h po
    rfl
  · intro s h po h1 h2
    unfold connect_wss_via_socks5_proxy
    rw [if_pos ⟨h1, h2⟩]
  · intro hst
    exact ⟨rfl, rfl⟩

/-- C9 witness: the scheme rejection and the default port at concrete
inputs. -/
theorem c9_socks5_scheme_and_default_port_witness :
    ("http" : String) ≠ "socks5" ∧ ("http" : String) ≠ "socks5h" ∧
    connect_wss_via_socks5_proxy ⟨"http", some "127.0.0.1", none⟩ =
      .error "Invalid SOCKS5 proxy URL" ∧
    connect_wss_via_socks5_proxy ⟨"socks5", some "127.0.0.1", none⟩ =
      .ok ("127.0.0.1", 9050) := by
  refine ⟨by decide, by decide, ?_, ?_⟩
  · exact c9_socks5_scheme_and_default_port.2.1 "http" (some "127.0.0.1") none
      (by decide) (by decide)
  · exact (c9_socks5_scheme_and_default_port.2.2 "127.0.0.1").1

end Net

namespace Wallet

/-- C6: on a cold start (Session empty, secret-store entry present and
parseable), `get_native_npub` returns the public key derived from the stored
secret and hydrates the Session, after one store read; a later
`ensure_session` (used by `sign_event_native`) then answers from the
in-memory keys without touching the store. -/
theorem c6_session_hydration
    (parseKey : String → Option Keys) (w : World) (s : String) (k : Keys)
    (hsession : w.session = none) (hstore : w.store = some s)
    (hparse : parseKey s = some k) :
    get_native_npub parseKey w =
      (some k.publicKey,
        { w with session := some k, storeReads := w.storeReads + 1 }) ∧
    ensure_session parseKey (get_native_npub parseKey w).2 =
      (.ok k, (get_native_npub parseKey w).2) := by
  have hfirst : ensure_session parseKey w =
      (.ok k, { w with session := some k, storeReads := w.storeReads + 1 }) := by
    unfold ensure_session
    rw [hsession, hstore]
    simp [hparse]
  have hnpub : get_native_npub parseKey w =
      (some k.publicKey,
        { w with session := some k, storeReads := w.storeReads + 1 }) := by
    unfold get_native_npub
    rw [hfirst]
  refine ⟨hnpub, ?_⟩
  rw [hnpub]
  unfold ensure_session
  rfl

/-- C6 witness: the cold-start hydration at a concrete world and parser. -/
theorem c6_session_hydration_witness :
    coldWorld.session = none ∧
    coldWorld.store = some "nsec1demo" ∧
    demoParse "nsec1demo" = some ⟨"npub1demo"⟩ ∧
    get_native_npub demoParse coldWorld =
      (some "npub1demo",
        { session := some ⟨"npub1demo"⟩, store := some "nsec1demo", storeReads := 1 }) := by
  refine ⟨rfl, rfl, rfl, ?_⟩
  have h := (c6_session_hydration demoParse coldWorld "nsec1demo" ⟨"npub1demo"⟩
    rfl rfl rfl).1
  simpa [coldWorld] using h

end Wallet

namespace Upload

lemma field_attempts_cons (o : String → HttpOutcome) (f : String)
    (fs : List String) (le : LastErr) :
    ∃ tail, (field_attempts o (f :: fs) le).2 = f :: tail :=
  ⟨_, rfl⟩

lemma field_attempts_fail_step (o : String → HttpOutcome) (f : String)
    (fs : List String) (le : LastErr) (r : HttpResp) (hf : o f = .resp r)
    (hs : status_is_success r.status = false) :
    field_attempts o (f :: fs) le =
      ((field_attempts o fs (.httpError r.status r.body)).1,
        f :: (field_attempts o fs (.httpError r.status r.body)).2) := by
  simp only [field_attempts, hf, hs, Bool.false_eq_true, if_false, ite_self]

lemma field_attempts_no_location (o o' : String → HttpOutcome)
    (hoo : ∀ f, respNoLocation (o f) = respNoLocation (o' f)) :
    ∀ (fs : List String) (le : LastErr),
      field_attempts o fs le = field_attempts o' fs le := by
  intro fs
  induction fs with
  | nil => intro le; rfl
  | cons f rest ih =>
    intro le
    have h := hoo f
    cases ho : o f with
    | netErr m =>
      cases ho' : o' f with
      | netErr m' =>
        rw [ho, ho'] at h
        simp only [respNoLocation, HttpOutcome.netErr.injEq] at h
        subst h
        simp [field_attempts, ho, ho', ih]
      | resp r' =>
        rw [ho, ho'] at h
        simp [respNoLocation] at h
    | resp r =>
      cases ho' : o' f with
      | netErr m' =>
        rw [ho, ho'] at h
        simp [respNoLocation] at h
      | resp r' =>
        rw [ho, ho'] at h
        obtain ⟨st, bd, loc, js⟩ := r
        obtain ⟨st', bd', loc', js'⟩ := r'
        simp only [respNoLocation, HttpOutcome.resp.injEq, HttpResp.mk.injEq,
          and_true, true_and] at h
        obtain ⟨h1, h2, h3⟩ := h
        subst h1; subst h2; subst h3
        simp [field_attempts, ho, ho', ih]

/-- C2: at the failing input (first attempt answered with HTTP 500, later
attempts failing at transport level) the field-name loop does not return the
500 immediately: it sends the two remaining field names and reports the
last error of the final attempt, masking the 500.  The loop body has no
early return on failures, so the 400-with-"no files" check never restricts
which failures retry. -/
theorem c2_loop_retries_on_all_failures :
    nip96_upload_v2 oracle500 =
      (.failed (.networkError "connection refused"), ["file", "files[]", "files"]) ∧
    (nip96_upload_v2 oracle500).2 ≠ ["file"] := by
  constructor
  · rfl
  · decide

/-- C3 counterexample: for a 301 response to the first attempt, the final
result is bit-for-bit independent of the Location header (so the reported
error cannot include it), and the loop goes on to send the two remaining
field names, contradicting both halves of the claim. -/
theorem c3_counterexample :
    nip96_upload_v2 (oracle301 (some "https://cdn.example/new")) =
      nip96_upload_v2 (oracle301 none) ∧
    (nip96_upload_v2 (oracle301 none)).2 = ["file", "files[]", "files"] :=
  ⟨rfl, rfl⟩

/-- C3 (amended): the HTTP client is built with redirect following disabled,
so a 3xx is surfaced as a response; the loop records it as a plain
`HTTP status: body` error whose content never depends on the Location
header (the helper returns only status and body), and the uploader then
proceeds to the next field names rather than stopping. -/
theorem c3_amended_redirect_handling :
    (∀ t, (Net.build_reqwest_client t).followRedirects = false) ∧
    (∀ (o o' : String → HttpOutcome),
      (∀ f, respNoLocation (o f) = respNoLocation (o' f)) →
      nip96_upload_v2 o = nip96_upload_v2 o') ∧
    (∀ (o : String → HttpOutcome) (r : HttpResp),
      o "file" = .resp r → 300 ≤ r.status → r.status < 400 →
      ∃ tail, (nip96_upload_v2 o).2 = "file" :: "files[]" :: tail) := by
  refine ⟨fun t => rfl, ?_, ?_⟩
  · intro o o' hoo
    exact field_attempts_no_location o o' hoo _ _
  · intro o r hfile h300 h400
    have hs : status_is_success r.status = false := by
      simp only [status_is_success, decide_eq_false_iff_not]
      omega
    obtain ⟨tail, htail⟩ :=
      field_attempts_cons o "files[]" ["files"] (.httpError r.status r.body)
    refine ⟨tail, ?_⟩
    show (field_attempts o ("file" :: ["files[]", "files"]) .noAttempts).2 =
      "file" :: "files[]" :: tail
    rw [field_attempts_fail_step o "file" ["files[]", "files"] .noAttempts r hfile hs]
    dsimp only
    rw [htail]

/-- C3 witness: the amended statement at the concrete 301 oracle. -/
theorem c3_amended_redirect_handling_witness :
    (Net.build_reqwest_client false).followRedirects = false ∧
    nip96_upload_v2 (oracle301 (some "https://cdn.example/moved")) =
      nip96_upload_v2 (oracle301 none) ∧
    ∃ tail, (nip96_upload_v2 (oracle301 none)).2 = "file" :: "files[]" :: tail := by
  have hloc : ∀ f, respNoLocation (oracle301 (some "https://cdn.example/moved") f) =
      respNoLocation (oracle301 none f) := by
    intro f
    by_cases h : f = "file" <;> simp [oracle301, respNoLocation, h]
  refine ⟨c3_amended_redirect_handling.1 false, ?_, ?_⟩
  · exact c3_amended_redirect_handling.2.1 _ _ hloc
  · exact c3_amended_redirect_handling.2.2 (oracle301 none) ⟨301, "", none, none⟩
      rfl (by decide) (by decide)

end Upload

end Obscur
